import Mathlib

/-!
Verification of the statsbomb-viz ETL pipeline against its specification.

Shallow embedding of the Python source:
  pandas cells are modelled as `Option` values (a `none` cell is a null / NaN
  / absent column), numeric values as `ℚ`, dataframes as `List` of row
  structures, and fallible steps (file reads) as `Except`.  Each namespace
  embeds one source module:

  * `SB.Utils`   — src/pipeline/utils.py   (unpack_location)
  * `SB.XgApply` — src/scripts/apply_xg_model.py (the xG apply step)
  * `SB.Bronze`  — src/pipeline/bronze.py  (per-unit ingestion and run loop)
  * `SB.Silver`  — src/pipeline/silver.py  (dimension / fact builders, run)
  * `SB.Gold`    — src/pipeline/gold.py    (aggregation queries)
  * `SB.Ppda`    — src/scripts/ppda.py     (pressing-intensity derivation)
  * `SB.Xt`      — src/scripts/xt_model.py (expected-threat solver)

Claim theorems are collected at the end of the file.
-/

namespace SB

/-- Keep the first occurrence of every element, dropping later duplicates.
This is the semantics of pandas `drop_duplicates` and of the key scan in a
SQL `GROUP BY` / `SELECT DISTINCT` (set of distinct keys, first-seen order). -/
def dropDupAux {α : Type} [DecidableEq α] : List α → List α → List α
  | [], _ => []
  | a :: l, seen => if a ∈ seen then dropDupAux l seen else a :: dropDupAux l (a :: seen)

/-- Distinct elements of a list, first occurrence kept. -/
def dropDup {α : Type} [DecidableEq α] (l : List α) : List α := dropDupAux l []

namespace Utils

/-- One cell of a pandas location column as seen by `unpack_location` in
src/pipeline/utils.py: Python `None`, a float NaN, a list/ndarray of numbers
(entries may themselves be `None`), or any other scalar (which falls through
to the final `return [None, None, None]`). -/
inductive LocValue : Type where
  | pynone : LocValue
  | nan : LocValue
  | arr : List (Option ℚ) → LocValue
  | other : LocValue
deriving DecidableEq, Repr

/-- The inner `extract` closure of `unpack_location`: maps one cell to the
triple `[x, y, z]`.  `float(arr[i]) if len(arr) > i and arr[i] is not None
else None` keeps entry `i` when it exists and is not `None`. -/
def extract : LocValue → Option ℚ × Option ℚ × Option ℚ
  | .pynone => (none, none, none)
  | .nan => (none, none, none)
  | .arr a =>
      (if h : 0 < a.length then a.get ⟨0, h⟩ else none,
       if h : 1 < a.length then a.get ⟨1, h⟩ else none,
       if h : 2 < a.length then a.get ⟨2, h⟩ else none)
  | .other => (none, none, none)

/-- Result of `unpack_location`: the x and y columns, and the z column when it
was kept (`zs = none` models the `result.drop(columns=[...z])` branch taken
when every z entry is null). -/
structure Unpacked : Type where
  xs : List (Option ℚ)
  ys : List (Option ℚ)
  zs : Option (List (Option ℚ))
deriving DecidableEq, Repr

/-- `unpack_location(series)`: apply `extract` to every cell, then drop the z
column if it is entirely null. -/
def unpack_location (series : List LocValue) : Unpacked :=
  let unpacked := series.map extract
  let zcol := unpacked.map (fun t => t.2.2)
  { xs := unpacked.map (fun t => t.1)
    ys := unpacked.map (fun t => t.2.1)
    zs := if zcol.all (fun z => z.isNone) then none else some zcol }

end Utils

namespace XgApply

/-- The columns of a `fact_shots` row that the apply step in
src/scripts/apply_xg_model.py reads: `shot_type`, `location_x`, `location_y`.
`row` is the dataframe index of the row (used by `df.update` alignment). -/
structure ShotRow : Type where
  row : ℕ
  shot_type : Option String
  location_x : Option ℚ
  location_y : Option ℚ
deriving DecidableEq, Repr

/-- The row-selection mask of `df["location_x"].notna() & df["location_y"].notna()`:
membership of a row in `df_valid`. -/
def hasValidLocation (s : ShotRow) : Bool :=
  s.location_x.isSome && s.location_y.isSome

/-- The `xg_model` cell after
`df.loc[df["shot_type"] == "Penalty", "xg_model"] = 0.76` (line 30): the
column is created holding 0.76 on penalty rows and NaN everywhere else.
A null `shot_type` compares unequal to the string, as in pandas. -/
def xgAfterPenaltyAssign (s : ShotRow) : Option ℚ :=
  if s.shot_type = some "Penalty" then some (76 / 100) else none

/-- The `xg_model` cell after `df.update(df_valid[["xg_model"]])` (line 31).
`DataFrame.update` aligns on the index and overwrites with every non-NA value
from the other frame, so every row of `df_valid` — penalties included — takes
the classifier output `model.predict_proba(X)[:, 1]` computed on line 27.
`predict` abstracts the loaded classifier. -/
def xgAfterUpdate (predict : ShotRow → ℚ) (s : ShotRow) : Option ℚ :=
  if hasValidLocation s then some (predict s) else xgAfterPenaltyAssign s

/-- The final `xg_model` cell after `df["xg_model"].fillna(0.0)` (line 32). -/
def xg_model (predict : ShotRow → ℚ) (s : ShotRow) : ℚ :=
  (xgAfterUpdate predict s).getD 0

end XgApply

namespace Bronze

/-- Which raw JSON source files exist under `data/statsbomb_raw/`, for the
per-match units of src/pipeline/bronze.py: `events/<match_id>.json` and
`lineups/<match_id>.json`. -/
structure RawDir : Type where
  eventsPresent : ℕ → Bool
  lineupsPresent : ℕ → Bool

/-- Which bronze Parquet artifacts exist: `events/<id>.parquet` and
`lineups/<id>.parquet` (the idempotency checks and the writes both act on
these). -/
structure BronzeDir : Type where
  events : List ℕ
  lineups : List ℕ
deriving DecidableEq, Repr

/-- The exception a unit raises: `path.read_text` on a missing source file
raises `FileNotFoundError`; nothing in `run` catches it. -/
inductive IngestError : Type where
  | fileNotFound : String → ℕ → IngestError
deriving DecidableEq, Repr

/-- `ingest_events(match_id, force)`: skip silently if the destination
Parquet exists and `force` is false; otherwise read the raw JSON (raising if
the source file is missing) and write the Parquet. -/
def ingest_events (raw : RawDir) (mid : ℕ) (force : Bool) (st : BronzeDir) :
    Except IngestError BronzeDir :=
  if mid ∈ st.events ∧ ¬force then .ok st
  else if raw.eventsPresent mid then .ok { st with events := mid :: st.events }
  else .error (.fileNotFound "events" mid)

/-- `ingest_lineups(match_id, force)`: same shape as `ingest_events`. -/
def ingest_lineups (raw : RawDir) (mid : ℕ) (force : Bool) (st : BronzeDir) :
    Except IngestError BronzeDir :=
  if mid ∈ st.lineups ∧ ¬force then .ok st
  else if raw.lineupsPresent mid then .ok { st with lineups := mid :: st.lineups }
  else .error (.fileNotFound "lineups" mid)

/-- The inner loop of `run` (bronze.py lines 119-121):
`for mid in match_ids: ingest_events(mid, force); ingest_lineups(mid, force)`.
There is no try/except, so the first exception propagates out of the loop;
writes made before it persist (the Parquet files already written stay on
disk), which the returned pair `(state, error)` records. -/
def runMatches (raw : RawDir) (force : Bool) :
    List ℕ → BronzeDir → BronzeDir × Option IngestError
  | [], st => (st, none)
  | mid :: rest, st =>
      match ingest_events raw mid force st with
      | .error e => (st, some e)
      | .ok st1 =>
          match ingest_lineups raw mid force st1 with
          | .error e => (st1, some e)
          | .ok st2 => runMatches raw force rest st2

end Bronze

namespace Silver

/-- Keep the first row for every key, dropping later rows with a key already
seen: pandas `drop_duplicates(subset=[key])`. -/
def dropDupByAux {α β : Type} [DecidableEq β] (key : α → β) :
    List α → List β → List α
  | [], _ => []
  | a :: l, seen =>
      if key a ∈ seen then dropDupByAux key l seen
      else a :: dropDupByAux key l (key a :: seen)

/-- pandas `drop_duplicates(subset=[key])`, first occurrence kept. -/
def dropDupBy {α β : Type} [DecidableEq β] (key : α → β) (l : List α) : List α :=
  dropDupByAux key l []

/-- One bronze competitions row, restricted to the five columns
`build_dim_competition` selects.  Every cell is nullable. -/
structure CompRow : Type where
  competition_id : Option ℤ
  season_id : Option ℤ
  competition_name : Option String
  season_name : Option String
  country_name : Option String
deriving DecidableEq, Repr

/-- One bronze matches row after `_normalise_matches` (canonical column
names), restricted to the columns `build_dim_match` reads.  `match_id` is the
StatsBomb key and is always present; `match_date` stands for the
`pd.to_datetime` result (dates are carried opaquely).  The `_col` fallback
for an absent column is a fully-null column, which the `Option` cells cover. -/
structure MatchRow : Type where
  match_id : ℤ
  competition_id : Option ℤ
  season_id : Option ℤ
  match_date : Option String
  kick_off : Option String
  home_team : Option String
  away_team : Option String
  home_score : Option ℤ
  away_score : Option ℤ
  stadium : Option String
  referee : Option String
  stage : Option String
  match_week : Option ℤ
deriving DecidableEq, Repr

/-- One `dim_team` row: synthetic sequential id per sorted team name. -/
structure TeamRow : Type where
  team_name : String
  team_id : ℕ
deriving DecidableEq, Repr

/-- One bronze lineups row (flattened by `ingest_lineups`), restricted to the
columns read by `build_dim_player` and `build_fact_lineups`. -/
structure LineupRow : Type where
  match_id : ℤ
  team_id : Option ℤ
  team_name : Option String
  player_id : Option ℤ
  player_name : Option String
  jersey_number : Option ℤ
  country : Option String
  position : Option String
deriving DecidableEq, Repr

/-- One `dim_player` row. -/
structure PlayerRow : Type where
  player_id : Option ℤ
  player_name : Option String
  country : Option String
deriving DecidableEq, Repr

/-- One tracked player inside a `shot_freeze_frame` list.  Locations in
freeze frames are concrete coordinate lists. -/
structure FreezePlayer : Type where
  player_id : Option ℤ
  player_name : Option String
  position : Option String
  location : Option (List ℚ)
  teammate : Option Bool
deriving DecidableEq, Repr

/-- One bronze events row after `_normalise_events` (canonical column names),
restricted to the columns the fact builders read.  A cell is `none` when the
value is null or the whole column is absent (the `_col` fallback).
`match_id` is stamped by bronze ingestion and always present; numeric cells
are already numeric, so `_int_col` / `pd.to_numeric(errors="coerce")` acts as
the identity on them. -/
structure EventRow : Type where
  id : Option String
  match_id : ℤ
  index : Option ℤ
  period : Option ℤ
  timestamp : Option String
  minute : Option ℤ
  second : Option ℤ
  type : Option String
  player_id : Option ℤ
  player : Option String
  team_id : Option ℤ
  team : Option String
  location : Utils.LocValue
  duration : Option ℚ
  under_pressure : Option Bool
  out : Option Bool
  play_pattern : Option String
  possession : Option ℤ
  possession_team_id : Option ℤ
  position : Option String
  pass_end_location : Utils.LocValue
  pass_length : Option ℚ
  pass_angle : Option ℚ
  pass_height : Option String
  pass_body_part : Option String
  pass_outcome : Option String
  pass_type : Option String
  pass_technique : Option String
  pass_recipient_id : Option ℤ
  pass_cross : Option Bool
  pass_switch : Option Bool
  pass_through_ball : Option Bool
  pass_shot_assist : Option Bool
  pass_goal_assist : Option Bool
  shot_end_location : Utils.LocValue
  shot_statsbomb_xg : Option ℚ
  shot_outcome : Option String
  shot_body_part : Option String
  shot_technique : Option String
  shot_type : Option String
  shot_first_time : Option Bool
  shot_key_pass_id : Option String
  shot_freeze_frame : Option (List FreezePlayer)
  carry_end_location : Utils.LocValue
deriving DecidableEq, Repr

/-- One `fact_events` row (output of `build_fact_events`). -/
structure FactEventRow : Type where
  event_id : Option String
  match_id : ℤ
  index : Option ℤ
  period : Option ℤ
  timestamp : Option String
  minute : Option ℤ
  second : Option ℤ
  type : Option String
  player_id : Option ℤ
  player : Option String
  team_id : Option ℤ
  team : Option String
  location_x : Option ℚ
  location_y : Option ℚ
  duration : Option ℚ
  under_pressure : Bool
  out : Bool
  play_pattern : Option String
  possession : Option ℤ
  possession_team_id : Option ℤ
  position : Option String
deriving DecidableEq, Repr

/-- One `fact_passes` row (output of `build_fact_passes`). -/
structure PassRow : Type where
  event_id : Option String
  match_id : ℤ
  player_id : Option ℤ
  team_id : Option ℤ
  period : Option ℤ
  minute : Option ℤ
  second : Option ℤ
  location_x : Option ℚ
  location_y : Option ℚ
  end_location_x : Option ℚ
  end_location_y : Option ℚ
  length : Option ℚ
  angle : Option ℚ
  height : Option String
  body_part : Option String
  outcome : Option String
  is_completed : Bool
  pass_type : Option String
  technique : Option String
  recipient_id : Option ℤ
  is_cross : Bool
  is_switch : Bool
  is_through_ball : Bool
  is_shot_assist : Bool
  is_goal_assist : Bool
  under_pressure : Bool
deriving DecidableEq, Repr

/-- One `fact_shots` row (output of `build_fact_shots`). -/
structure ShotRow : Type where
  event_id : Option String
  match_id : ℤ
  player_id : Option ℤ
  team_id : Option ℤ
  period : Option ℤ
  minute : Option ℤ
  second : Option ℤ
  location_x : Option ℚ
  location_y : Option ℚ
  end_location_x : Option ℚ
  end_location_y : Option ℚ
  end_location_z : Option ℚ
  xg : Option ℚ
  outcome : Option String
  is_goal : Bool
  body_part : Option String
  technique : Option String
  shot_type : Option String
  is_first_time : Bool
  key_pass_id : Option String
  under_pressure : Bool
deriving DecidableEq, Repr

/-- One `fact_carries` row (output of `build_fact_carries`). -/
structure CarryRow : Type where
  event_id : Option String
  match_id : ℤ
  player_id : Option ℤ
  team_id : Option ℤ
  period : Option ℤ
  minute : Option ℤ
  second : Option ℤ
  location_x : Option ℚ
  location_y : Option ℚ
  end_location_x : Option ℚ
  end_location_y : Option ℚ
  duration : Option ℚ
  under_pressure : Bool
deriving DecidableEq, Repr

/-- One `fact_lineups` row (output of `build_fact_lineups`). -/
structure FactLineupRow : Type where
  match_id : ℤ
  team_id : Option ℤ
  team_name : Option String
  player_id : Option ℤ
  player_name : Option String
  jersey_number : Option ℤ
  position : Option String
  is_starter : Bool
deriving DecidableEq, Repr

/-- One `bridge_shot_freeze_frame` row. -/
structure BridgeRow : Type where
  event_id : Option String
  match_id : ℤ
  player_id : Option ℤ
  player_name : Option String
  position : Option String
  location_x : Option ℚ
  location_y : Option ℚ
  is_teammate : Bool
deriving DecidableEq, Repr

/-- The exception `_read_bronze` raises when a bronze layer directory holds
no Parquet files (`FileNotFoundError(f"No parquet files in ...")`). -/
inductive SilverError : Type where
  | noParquetFiles : String → SilverError
deriving DecidableEq, Repr

/-- The bronze Parquet files each layer holds: one inner list per file.
Rows already carry canonical column names (the `_normalise_*` rename maps),
since the rename only changes labels, not values. -/
structure BronzeData : Type where
  competitions : List (List CompRow)
  matchesList : List (List MatchRow)
  events : List (List EventRow)
  lineups : List (List LineupRow)

/-- `_read_bronze("competitions")`: fail if there are no files, else
concatenate them. -/
def readCompetitions (b : BronzeData) : Except SilverError (List CompRow) :=
  if b.competitions.isEmpty then .error (.noParquetFiles "competitions")
  else .ok b.competitions.flatten

/-- `_read_bronze("matches")`. -/
def readMatches (b : BronzeData) : Except SilverError (List MatchRow) :=
  if b.matchesList.isEmpty then .error (.noParquetFiles "matches")
  else .ok b.matchesList.flatten

/-- `_read_bronze("events")`. -/
def readEvents (b : BronzeData) : Except SilverError (List EventRow) :=
  if b.events.isEmpty then .error (.noParquetFiles "events")
  else .ok b.events.flatten

/-- `_read_bronze("lineups")`. -/
def readLineups (b : BronzeData) : Except SilverError (List LineupRow) :=
  if b.lineups.isEmpty then .error (.noParquetFiles "lineups")
  else .ok b.lineups.flatten

/-- `build_dim_competition` (minus the commit): select the five columns and
`drop_duplicates()` (full-row, first kept). -/
def build_dim_competition (b : BronzeData) : Except SilverError (List CompRow) :=
  (readCompetitions b).map dropDup

/-- `build_dim_match` (minus the commit): project the thirteen columns and
`drop_duplicates(subset=["match_id"])`. -/
def build_dim_match (b : BronzeData) : Except SilverError (List MatchRow) :=
  (readMatches b).map (dropDupBy (·.match_id))

/-- `build_dim_team` (minus the commit):
`pd.Series(pd.concat([home, away]).unique()).dropna().sort_values()` and a
sequential id starting at 1 in that sorted order. -/
def build_dim_team (b : BronzeData) : Except SilverError (List TeamRow) :=
  (readMatches b).map fun df =>
    let names := (dropDup (df.map (·.home_team) ++ df.map (·.away_team))).filterMap id
    let sorted := names.insertionSort (· ≤ ·)
    sorted.enum.map fun p => { team_name := p.2, team_id := p.1 + 1 }

/-- `build_dim_player` (minus the commit):
`drop_duplicates(subset=["player_id"])`; the later `out["country"] =
_col(df, "country")` aligns on the surviving (first-occurrence) indices, so
each kept row keeps its own country cell. -/
def build_dim_player (b : BronzeData) : Except SilverError (List PlayerRow) :=
  (readLineups b).map fun df =>
    (dropDupBy (·.player_id) df).map fun r =>
      { player_id := r.player_id, player_name := r.player_name, country := r.country }

/-- `_bool_col`: `fillna(False).astype(bool)`. -/
def boolCol (c : Option Bool) : Bool := c.getD false

/-- `build_fact_events` (minus the commit): one output row per event, with
`unpack_location` applied to the `location` column. -/
def build_fact_events (evs : List EventRow) : List FactEventRow :=
  evs.map fun e =>
    { event_id := e.id
      match_id := e.match_id
      index := e.index
      period := e.period
      timestamp := e.timestamp
      minute := e.minute
      second := e.second
      type := e.type
      player_id := e.player_id
      player := e.player
      team_id := e.team_id
      team := e.team
      location_x := (Utils.extract e.location).1
      location_y := (Utils.extract e.location).2.1
      duration := e.duration
      under_pressure := boolCol e.under_pressure
      out := boolCol e.out
      play_pattern := e.play_pattern
      possession := e.possession
      possession_team_id := e.possession_team_id
      position := e.position }

/-- `build_fact_passes` (minus the commit): the subset of events whose `type`
is the string Pass, re-projected.  `is_completed` is
`_col(passes, "pass_outcome").isna()`. -/
def build_fact_passes (evs : List EventRow) : List PassRow :=
  (evs.filter fun e => e.type == some "Pass").map fun e =>
    { event_id := e.id
      match_id := e.match_id
      player_id := e.player_id
      team_id := e.team_id
      period := e.period
      minute := e.minute
      second := e.second
      location_x := (Utils.extract e.location).1
      location_y := (Utils.extract e.location).2.1
      end_location_x := (Utils.extract e.pass_end_location).1
      end_location_y := (Utils.extract e.pass_end_location).2.1
      length := e.pass_length
      angle := e.pass_angle
      height := e.pass_height
      body_part := e.pass_body_part
      outcome := e.pass_outcome
      is_completed := e.pass_outcome.isNone
      pass_type := e.pass_type
      technique := e.pass_technique
      recipient_id := e.pass_recipient_id
      is_cross := boolCol e.pass_cross
      is_switch := boolCol e.pass_switch
      is_through_ball := boolCol e.pass_through_ball
      is_shot_assist := boolCol e.pass_shot_assist
      is_goal_assist := boolCol e.pass_goal_assist
      under_pressure := boolCol e.under_pressure }

/-- `build_fact_shots` (minus the commit).  The z cell of the unpacked shot
end location equals the per-row extracted z whether or not the z column was
kept: a dropped column means every z was null, and the `end_loc.get`
default is a null column. -/
def build_fact_shots (evs : List EventRow) : List ShotRow :=
  (evs.filter fun e => e.type == some "Shot").map fun e =>
    { event_id := e.id
      match_id := e.match_id
      player_id := e.player_id
      team_id := e.team_id
      period := e.period
      minute := e.minute
      second := e.second
      location_x := (Utils.extract e.location).1
      location_y := (Utils.extract e.location).2.1
      end_location_x := (Utils.extract e.shot_end_location).1
      end_location_y := (Utils.extract e.shot_end_location).2.1
      end_location_z := (Utils.extract e.shot_end_location).2.2
      xg := e.shot_statsbomb_xg
      outcome := e.shot_outcome
      is_goal := e.shot_outcome == some "Goal"
      body_part := e.shot_body_part
      technique := e.shot_technique
      shot_type := e.shot_type
      is_first_time := boolCol e.shot_first_time
      key_pass_id := e.shot_key_pass_id
      under_pressure := boolCol e.under_pressure }

/-- `build_fact_carries` (minus the commit). -/
def build_fact_carries (evs : List EventRow) : List CarryRow :=
  (evs.filter fun e => e.type == some "Carry").map fun e =>
    { event_id := e.id
      match_id := e.match_id
      player_id := e.player_id
      team_id := e.team_id
      period := e.period
      minute := e.minute
      second := e.second
      location_x := (Utils.extract e.location).1
      location_y := (Utils.extract e.location).2.1
      end_location_x := (Utils.extract e.carry_end_location).1
      end_location_y := (Utils.extract e.carry_end_location).2.1
      duration := e.duration
      under_pressure := boolCol e.under_pressure }

/-- `build_fact_lineups` (minus the commit): reads the lineups bronze layer
itself (so it can fail) and projects each row.  `is_starter` is
`_col(df, "position").notna()`. -/
def build_fact_lineups (b : BronzeData) : Except SilverError (List FactLineupRow) :=
  (readLineups b).map fun df =>
    df.map fun r =>
      { match_id := r.match_id
        team_id := r.team_id
        team_name := r.team_name
        player_id := r.player_id
        player_name := r.player_name
        jersey_number := r.jersey_number
        position := r.position
        is_starter := r.position.isSome }

/-- One freeze-frame player flattened into a bridge row. -/
def mkBridgeRow (e : EventRow) (p : FreezePlayer) : BridgeRow :=
  { event_id := e.id
    match_id := e.match_id
    player_id := p.player_id
    player_name := p.player_name
    position := p.position
    location_x := p.location.bind (·.get? 0)
    location_y := p.location.bind (·.get? 1)
    is_teammate := (p.teammate).getD false }

/-- `build_bridge_shot_freeze_frame` (minus the commit): shots with a
non-null freeze frame, one row per tracked player.  The empty-input branch
creates an empty table, i.e. the empty list. -/
def build_bridge_shot_freeze_frame (evs : List EventRow) : List BridgeRow :=
  ((evs.filter fun e => e.type == some "Shot").filter
      fun e => e.shot_freeze_frame.isSome).flatMap
    fun e => ((e.shot_freeze_frame).getD []).map (mkBridgeRow e)

/-- The DuckDB store restricted to the tables the Silver stage owns.  A
`none` table does not exist; `_drop_create` replaces the whole entry. -/
structure Store : Type where
  dim_competition : Option (List CompRow)
  dim_match : Option (List MatchRow)
  dim_team : Option (List TeamRow)
  dim_player : Option (List PlayerRow)
  fact_events : Option (List FactEventRow)
  fact_passes : Option (List PassRow)
  fact_shots : Option (List ShotRow)
  fact_carries : Option (List CarryRow)
  fact_lineups : Option (List FactLineupRow)
  bridge_shot_freeze_frame : Option (List BridgeRow)
deriving DecidableEq, Repr

/-- `silver.run()`: dimension tables, then one read of the events bronze,
then the fact tables, in source order.  Every builder computes its dataframe
in memory and only then commits it via `_drop_create`; there is no try/except
around the sequence (the `finally` only closes the connection), so the first
exception aborts the stage, leaving every already-committed table replaced
and every not-yet-committed table untouched.  The returned pair is the store
after the run together with the propagated error, if any. -/
def run (b : BronzeData) (st : Store) : Store × Option SilverError :=
  match build_dim_competition b with
  | .error e => (st, some e)
  | .ok t1 =>
  let st1 := { st with dim_competition := some t1 }
  match build_dim_match b with
  | .error e => (st1, some e)
  | .ok t2 =>
  let st2 := { st1 with dim_match := some t2 }
  match build_dim_team b with
  | .error e => (st2, some e)
  | .ok t3 =>
  let st3 := { st2 with dim_team := some t3 }
  match build_dim_player b with
  | .error e => (st3, some e)
  | .ok t4 =>
  let st4 := { st3 with dim_player := some t4 }
  match readEvents b with
  | .error e => (st4, some e)
  | .ok dfEvents =>
  let st5 := { st4 with fact_events := some (build_fact_events dfEvents) }
  let st6 := { st5 with fact_passes := some (build_fact_passes dfEvents) }
  let st7 := { st6 with fact_shots := some (build_fact_shots dfEvents) }
  let st8 := { st7 with fact_carries := some (build_fact_carries dfEvents) }
  match build_fact_lineups b with
  | .error e => (st8, some e)
  | .ok t9 =>
  let st9 := { st8 with fact_lineups := some t9 }
  ({ st9 with
      bridge_shot_freeze_frame := some (build_bridge_shot_freeze_frame dfEvents) },
    none)

end Silver

namespace Gold

open Silver

/-- SQL equality on nullable cells: true only when both sides are non-null
and equal (a NULL never equals anything in a join or correlated filter). -/
def sqlEq {α : Type} [DecidableEq α] (a b : Option α) : Bool :=
  match a, b with
  | some x, some y => decide (x = y)
  | _, _ => false

/-- Strict comparison of nullable sort keys with NULLS LAST (the DuckDB
default for `ORDER BY ... ASC`). -/
def nullsLastLt (a b : Option ℤ) : Bool :=
  match a, b with
  | some x, some y => decide (x < y)
  | some _, none => true
  | none, _ => false

/-- Non-strict comparison of nullable sort keys with NULLS LAST. -/
def nullsLastLe (a b : Option ℤ) : Bool :=
  match a, b with
  | some x, some y => decide (x ≤ y)
  | some _, none => true
  | none, none => true
  | none, some _ => false

/-- Lexicographic `ORDER BY period, minute, second`. -/
def timeKeyLe (a b : Option ℤ × Option ℤ × Option ℤ) : Bool :=
  nullsLastLt a.1 b.1 ||
    (a.1 == b.1 && (nullsLastLt a.2.1 b.2.1 ||
      (a.2.1 == b.2.1 && nullsLastLe a.2.2 b.2.2)))

/-- One step of the running `SUM` accumulator: SQL `SUM` skips a NULL
addend and leaves NULL until a non-null value has been seen. -/
def stepAcc (acc x : Option ℚ) : Option ℚ :=
  match x with
  | none => acc
  | some v => some (acc.getD 0 + v)

/-- The running `SUM(s.xg) OVER (... ROWS BETWEEN UNBOUNDED PRECEDING AND
CURRENT ROW)` column: each row carries the accumulated sum up to and
including itself.  The first argument is the sum accumulated so far. -/
def runningSums : Option ℚ → List (Option ℚ) → List (Option ℚ)
  | _, [] => []
  | acc, x :: rest => stepAcc acc x :: runningSums (stepAcc acc x) rest

/-- The `SELECT DISTINCT match_id, team_id, team FROM fact_events` subquery
used to decorate rows with a team name. -/
def teamNames (events : List FactEventRow) : List (ℤ × Option ℤ × Option String) :=
  dropDup (events.map fun e => (e.match_id, e.team_id, e.team))

/-- LEFT JOIN of one (match_id, team_id) pair against `teamNames`: all
matching names, or a single NULL when none match. -/
def joinTeamName (events : List FactEventRow) (m : ℤ) (t : Option ℤ) :
    List (Option String) :=
  let hits := (teamNames events).filter fun r => r.1 == m && sqlEq r.2.1 t
  if hits.isEmpty then [none] else hits.map fun r => r.2.2

/-- One `gold_xg_timeline` row. -/
structure TimelineRow : Type where
  match_id : ℤ
  team_id : Option ℤ
  team_name : Option String
  period : Option ℤ
  minute : Option ℤ
  second : Option ℤ
  xg : Option ℚ
  is_goal : Bool
  outcome : Option String
  cumulative_xg : Option ℚ
deriving DecidableEq, Repr

/-- One `(match_id, team_id)` window partition of `build_gold_xg_timeline`:
the partition of the joined result, ordered by (period, minute, second).
Window `PARTITION BY` groups NULL keys together, hence plain `Option`
equality on `team_id`. -/
def partitionSorted (shots : List ShotRow) (events : List FactEventRow)
    (k : ℤ × Option ℤ) : List (ShotRow × Option String) :=
  let part := shots.filter fun s => s.match_id == k.1 && s.team_id == k.2
  let joined := part.flatMap fun s =>
    (joinTeamName events s.match_id s.team_id).map fun n => (s, n)
  joined.insertionSort fun a b =>
    timeKeyLe (a.1.period, a.1.minute, a.1.second)
      (b.1.period, b.1.minute, b.1.second) = true

/-- The output rows of one partition: the sorted partition rows zipped with
their running sums. -/
def partitionTimeline (shots : List ShotRow) (events : List FactEventRow)
    (k : ℤ × Option ℤ) : List TimelineRow :=
  let sortedPart := partitionSorted shots events k
  let cums := runningSums none (sortedPart.map fun p => p.1.xg)
  (sortedPart.zip cums).map fun pc =>
    { match_id := pc.1.1.match_id
      team_id := pc.1.1.team_id
      team_name := pc.1.2
      period := pc.1.1.period
      minute := pc.1.1.minute
      second := pc.1.1.second
      xg := pc.1.1.xg
      is_goal := pc.1.1.is_goal
      outcome := pc.1.1.outcome
      cumulative_xg := pc.2 }

/-- `build_gold_xg_timeline` (minus the commit): every `(match_id, team_id)`
partition, each holding its running cumulative xG. -/
def build_gold_xg_timeline (shots : List ShotRow) (events : List FactEventRow) :
    List TimelineRow :=
  (dropDup (shots.map fun s => (s.match_id, s.team_id))).flatMap
    (partitionTimeline shots events)

/-- SQL `AVG` over a group: skips NULL cells, NULL when none remain. -/
def avgOpt (l : List (Option ℚ)) : Option ℚ :=
  let p := l.filterMap id
  if p.isEmpty then none else some (p.sum / p.length)

/-- SQL `SUM` over a group: skips NULL cells, NULL when none remain. -/
def sumOpt (l : List (Option ℚ)) : Option ℚ :=
  let p := l.filterMap id
  if p.isEmpty then none else some p.sum

/-- DuckDB `ROUND(x, n)` rounds half away from zero. -/
def roundAway (x : ℚ) : ℤ :=
  if 0 ≤ x then ⌊x + 1 / 2⌋ else -⌊-x + 1 / 2⌋

/-- `ROUND(x, n)` at `n` decimal places. -/
def roundTo (n : ℕ) (x : ℚ) : ℚ :=
  (roundAway (x * 10 ^ n) : ℚ) / 10 ^ n

/-- One `gold_pass_network_edges` row. -/
structure EdgeRow : Type where
  match_id : ℤ
  team_id : Option ℤ
  passer_id : Option ℤ
  recipient_id : Option ℤ
  passer_name : Option String
  recipient_name : Option String
  pass_count : ℕ
  avg_start_x : Option ℚ
  avg_start_y : Option ℚ
  avg_end_x : Option ℚ
  avg_end_y : Option ℚ
deriving DecidableEq, Repr

/-- The `WHERE p.is_completed = TRUE AND p.recipient_id IS NOT NULL` filter
of the edges query. -/
def pnEdgeFilter (p : PassRow) : Bool :=
  p.is_completed && p.recipient_id.isSome

/-- The `SELECT DISTINCT match_id, team_id, player_id, player FROM
fact_events WHERE player_id IS NOT NULL` subquery (the `ep` join). -/
def epEntries (events : List FactEventRow) :
    List (ℤ × Option ℤ × Option ℤ × Option String) :=
  dropDup ((events.filter fun e => e.player_id.isSome).map
    fun e => (e.match_id, e.team_id, e.player_id, e.player))

/-- The `SELECT DISTINCT match_id, player_id, player FROM fact_events WHERE
player_id IS NOT NULL` subquery (the `er` join). -/
def erEntries (events : List FactEventRow) :
    List (ℤ × Option ℤ × Option String) :=
  dropDup ((events.filter fun e => e.player_id.isSome).map
    fun e => (e.match_id, e.player_id, e.player))

/-- LEFT JOIN of one pass against `ep` (passer names). -/
def epNames (events : List FactEventRow) (p : PassRow) : List (Option String) :=
  let hits := (epEntries events).filter fun r =>
    r.1 == p.match_id && sqlEq r.2.1 p.team_id && sqlEq r.2.2.1 p.player_id
  if hits.isEmpty then [none] else hits.map fun r => r.2.2.2

/-- LEFT JOIN of one pass against `er` (recipient names). -/
def erNames (events : List FactEventRow) (p : PassRow) : List (Option String) :=
  let hits := (erEntries events).filter fun r =>
    r.1 == p.match_id && sqlEq r.2.1 p.recipient_id
  if hits.isEmpty then [none] else hits.map fun r => r.2.2

/-- The joined relation the edges query aggregates: filtered passes, each
multiplied by its matching passer and recipient name rows. -/
def edgeJoinedRows (passes : List PassRow) (events : List FactEventRow) :
    List (PassRow × Option String × Option String) :=
  (passes.filter pnEdgeFilter).flatMap fun p =>
    (epNames events p).flatMap fun en =>
      (erNames events p).map fun rn => (p, en, rn)

/-- The `GROUP BY` key of the edges query:
`p.match_id, p.team_id, p.player_id, p.recipient_id, ep.player, er.player`. -/
structure EdgeKey : Type where
  match_id : ℤ
  team_id : Option ℤ
  passer_id : Option ℤ
  recipient_id : Option ℤ
  passer_name : Option String
  recipient_name : Option String
deriving DecidableEq, Repr

/-- The grouping key of one joined row.  `GROUP BY` treats NULL keys as
equal, hence plain `Option` equality when comparing keys. -/
def edgeKey (r : PassRow × Option String × Option String) : EdgeKey :=
  { match_id := r.1.match_id
    team_id := r.1.team_id
    passer_id := r.1.player_id
    recipient_id := r.1.recipient_id
    passer_name := r.2.1
    recipient_name := r.2.2 }

/-- `build_gold_pass_network_edges` (minus the commit): group the joined
relation by `edgeKey`, aggregate, and keep groups with
`HAVING COUNT(*) >= 2`. -/
def build_gold_pass_network_edges (passes : List PassRow)
    (events : List FactEventRow) : List EdgeRow :=
  let rows := edgeJoinedRows passes events
  (dropDup (rows.map edgeKey)).filterMap fun k =>
    let grp := rows.filter fun r => edgeKey r == k
    if 2 ≤ grp.length then
      some
        { match_id := k.match_id
          team_id := k.team_id
          passer_id := k.passer_id
          recipient_id := k.recipient_id
          passer_name := k.passer_name
          recipient_name := k.recipient_name
          pass_count := grp.length
          avg_start_x := avgOpt (grp.map fun r => r.1.location_x)
          avg_start_y := avgOpt (grp.map fun r => r.1.location_y)
          avg_end_x := avgOpt (grp.map fun r => r.1.end_location_x)
          avg_end_y := avgOpt (grp.map fun r => r.1.end_location_y) }
    else none

/-- One `gold_team_stats` row. -/
structure TeamStatsRow : Type where
  match_id : ℤ
  team_id : Option ℤ
  team_name : Option String
  total_shots : ℕ
  shots_on_target : ℕ
  goals : ℕ
  total_xg : Option ℚ
  total_passes : ℕ
  pass_completion_pct : Option ℚ
  total_carries : ℕ
  total_pressures : ℕ
deriving DecidableEq, Repr

/-- The correlated subquery rows
`FROM fact_passes p WHERE p.match_id = s.match_id AND p.team_id = s.team_id`. -/
def teamPasses (passes : List PassRow) (m : ℤ) (t : Option ℤ) : List PassRow :=
  passes.filter fun p => p.match_id == m && sqlEq p.team_id t

/-- `build_gold_team_stats` (minus the commit and the later PPDA merge):
`FROM fact_shots` LEFT JOINed to the distinct team names,
`GROUP BY s.match_id, s.team_id, e.team`, with correlated counts over
passes, carries and pressure events. -/
def build_gold_team_stats (shots : List ShotRow) (passes : List PassRow)
    (carries : List CarryRow) (events : List FactEventRow) : List TeamStatsRow :=
  let joined := shots.flatMap fun s =>
    (joinTeamName events s.match_id s.team_id).map fun n => (s, n)
  (dropDup (joined.map fun r => (r.1.match_id, r.1.team_id, r.2))).map fun k =>
    let grp := joined.filter fun r => (r.1.match_id, r.1.team_id, r.2) == k
    let tp := teamPasses passes k.1 k.2.1
    { match_id := k.1
      team_id := k.2.1
      team_name := k.2.2
      total_shots := grp.length
      shots_on_target := (grp.filter fun r =>
        r.1.outcome == some "Saved" || r.1.outcome == some "Goal").length
      goals := (grp.filter fun r => r.1.is_goal).length
      total_xg := (sumOpt (grp.map fun r => r.1.xg)).map (roundTo 3)
      total_passes := tp.length
      pass_completion_pct :=
        if tp.isEmpty then none
        else some (roundTo 1
          (100 * ((tp.filter fun p => p.is_completed).length : ℚ) / tp.length))
      total_carries := (carries.filter fun c =>
        c.match_id == k.1 && sqlEq c.team_id k.2.1).length
      total_pressures := (events.filter fun ev =>
        ev.match_id == k.1 && sqlEq ev.team_id k.2.1 &&
          ev.type == some "Pressure").length }

end Gold

namespace Ppda

open Silver

/-- SQL `GROUP BY key` with `COUNT(*)`: one `(key, count)` pair per distinct
key of the input (NULL keys grouped together). -/
def groupCounts {α β : Type} [DecidableEq β] (key : α → β) (l : List α) :
    List (β × ℕ) :=
  (dropDup (l.map key)).map fun k => (k, (l.filter fun a => key a == k).length)

/-- PRESS_ZONE_X = 48.0: only events in the opponent 60% of the pitch. -/
def PRESS_ZONE_X : ℚ := 48

/-- The `location_x > 48` zone filter; a NULL coordinate fails the SQL
comparison. -/
def inZone (e : FactEventRow) : Bool :=
  match e.location_x with
  | some x => decide (PRESS_ZONE_X < x)
  | none => false

/-- The defensive-action type filter
`type IN ('Tackle', 'Interception', 'Foul Committed', 'Ball Recovery')`. -/
def isDefAction (e : FactEventRow) : Bool :=
  e.type == some "Tackle" || e.type == some "Interception" ||
    e.type == some "Foul Committed" || e.type == some "Ball Recovery"

/-- The grouping key `match_id, team_id, team` shared by the aggregate
queries of the script. -/
def teamKey (e : FactEventRow) : ℤ × Option ℤ × Option String :=
  (e.match_id, e.team_id, e.team)

/-- Step 1 of the script: passes made by each team inside the zone,
`GROUP BY match_id, team_id, team`. -/
def passes_in_zone (events : List FactEventRow) :
    List ((ℤ × Option ℤ × Option String) × ℕ) :=
  groupCounts teamKey (events.filter fun e => e.type == some "Pass" && inZone e)

/-- Step 2: defensive actions made by each team inside the zone. -/
def def_actions (events : List FactEventRow) :
    List ((ℤ × Option ℤ × Option String) × ℕ) :=
  groupCounts teamKey (events.filter fun e => isDefAction e && inZone e)

/-- `SELECT DISTINCT match_id, team_id, team FROM fact_events WHERE team IS
NOT NULL`. -/
def match_teams (events : List FactEventRow) :
    List (ℤ × Option ℤ × Option String) :=
  dropDup ((events.filter fun e => e.team.isSome).map teamKey)

/-- pandas `!=` between two nullable cells: NaN compares unequal to
everything, NaN included, so only two equal non-null values compare equal. -/
def pdNe (a b : Option ℤ) : Bool :=
  match a, b with
  | some x, some y => decide (x ≠ y)
  | _, _ => true

/-- The self-joined `(team, opponent)` pairs: merge of `match_teams` with
itself on `match_id`, keeping rows with `team_id != opp_team_id` under
pandas inequality. -/
def teamPairs (events : List FactEventRow) :
    List ((ℤ × Option ℤ × Option String) × ℤ × Option ℤ × Option String) :=
  ((match_teams events).flatMap fun t =>
      ((match_teams events).filter fun o => o.1 == t.1).map fun o => (t, o)).filter
    fun p => pdNe p.1.2.1 p.2.2.1

/-- numpy round-half-to-even of a rational (pandas `Series.round`). -/
def roundHalfEven (x : ℚ) : ℤ :=
  if x - ⌊x⌋ = 1 / 2 then (if 2 ∣ ⌊x⌋ then ⌊x⌋ else ⌊x⌋ + 1) else round x

/-- pandas `.round(2)`. -/
def roundTo2 (x : ℚ) : ℚ := (roundHalfEven (x * 100) : ℚ) / 100

/-- One `gold_ppda_match` row.  `opp_passes_in_zone` and `def_actions` are
float columns after the `fillna` calls. -/
structure PpdaRow : Type where
  match_id : ℤ
  team_id : Option ℤ
  team : Option String
  opp_passes_in_zone : ℚ
  def_actions : ℚ
  ppda : ℚ
deriving DecidableEq, Repr

/-- Steps 3-5 of the script: for every team pair, left-merge the opponent
pass count (on `match_id, opp_team_id`) and the own defensive-action count
(on `match_id, team_id`), `fillna(0)` the former and `fillna(1)` the latter
(the divide-by-zero floor), and compute `ppda = opp_passes / def_actions`
rounded to two decimals.  pandas merges match NULL keys to NULL keys, hence
plain `Option` equality, and a key hit on several grouped rows multiplies
the row. -/
def ppda_match (events : List FactEventRow) : List PpdaRow :=
  let pz := passes_in_zone events
  let da := def_actions events
  (teamPairs events).flatMap fun p =>
    let pzHits := pz.filter fun r => r.1.1 == p.1.1 && r.1.2.1 == p.2.2.1
    let pzVals : List (Option ℕ) :=
      if pzHits.isEmpty then [none] else pzHits.map fun r => some r.2
    pzVals.flatMap fun pv =>
      let daHits := da.filter fun r => r.1.1 == p.1.1 && r.1.2.1 == p.1.2.1
      let daVals : List (Option ℕ) :=
        if daHits.isEmpty then [none] else daHits.map fun r => some r.2
      daVals.map fun dv =>
        let oppP : ℚ := (pv.map fun n => (n : ℚ)).getD 0
        let defA : ℚ := (dv.map fun n => (n : ℚ)).getD 1
        { match_id := p.1.1
          team_id := p.1.2.1
          team := p.1.2.2
          opp_passes_in_zone := oppP
          def_actions := defA
          ppda := roundTo2 (oppP / defA) }

/-- The number of recorded defensive actions of `(match, team)` in the zone
(what the claim means by zero actions recorded). -/
def defActionCount (events : List FactEventRow) (m : ℤ) (t : Option ℤ) : ℕ :=
  ((events.filter fun e => isDefAction e && inZone e).filter
    fun e => e.match_id == m && e.team_id == t).length

end Ppda

namespace Xt

/-- GRID_X = 16 zones along the pitch length. -/
def GRID_X : ℕ := 16

/-- GRID_Y = 12 zones along the pitch width. -/
def GRID_Y : ℕ := 12

/-- PITCH_X = 120.0. -/
def PITCH_X : ℚ := 120

/-- PITCH_Y = 80.0. -/
def PITCH_Y : ℚ := 80

/-- ITERS = 10 fixed value-iteration rounds. -/
def ITERS : ℕ := 10

/-- The `1e-6` epsilon added to denominators. -/
def EPS : ℚ := 1 / 1000000

/-- numpy `.clip(0, hi).astype(int)`: clamp into `[0, hi]` and truncate.
The clipped value is non-negative, so truncation toward zero is the floor. -/
def clipToGrid (v : ℚ) (hi : ℕ) : ℕ := (⌊min (max v 0) (hi : ℚ)⌋).toNat

/-- `to_grid` column index: `(x / PITCH_X * GRID_X).clip(0, GRID_X - 1)`. -/
def toCol (x : ℚ) : ℕ := clipToGrid (x / PITCH_X * GRID_X) (GRID_X - 1)

/-- `to_grid` row index: `(y / PITCH_Y * GRID_Y).clip(0, GRID_Y - 1)`. -/
def toRow (y : ℚ) : ℕ := clipToGrid (y / PITCH_Y * GRID_Y) (GRID_Y - 1)

/-- 192 zones. -/
def nZones : ℕ := GRID_Y * GRID_X

theorem clipToGrid_le (v : ℚ) (hi : ℕ) : clipToGrid v hi ≤ hi := by
  unfold clipToGrid
  have h1 : (⌊min (max v 0) (hi : ℚ)⌋) ≤ (hi : ℤ) := by
    have := Int.floor_le_floor (α := ℚ) (min_le_right (max v 0) (hi : ℚ))
    simpa using this
  omega

/-- `zone_index(col, row) = row * GRID_X + col`, as an index into the
flattened 192-zone grid. -/
def zoneIdx (x y : ℚ) : Fin nZones :=
  ⟨toRow y * GRID_X + toCol x, by
    have hr : toRow y ≤ GRID_Y - 1 := clipToGrid_le _ _
    have hc : toCol x ≤ GRID_X - 1 := clipToGrid_le _ _
    have : nZones = 192 := rfl
    unfold GRID_X GRID_Y nZones at *
    omega⟩

/-- One row of the passes dataframe handed to `build_xt_grid` (coordinates
are non-null by the loading query filter). -/
structure XtPass : Type where
  location_x : ℚ
  location_y : ℚ
  end_location_x : ℚ
  end_location_y : ℚ
  is_completed : Bool
deriving DecidableEq, Repr

/-- One row of the carries dataframe handed to `build_xt_grid`. -/
structure XtCarry : Type where
  location_x : ℚ
  location_y : ℚ
  end_location_x : ℚ
  end_location_y : ℚ
deriving DecidableEq, Repr

/-- One row of the shots dataframe handed to `build_xt_grid`. -/
structure XtShot : Type where
  location_x : ℚ
  location_y : ℚ
  is_goal : Bool
deriving DecidableEq, Repr

/-- The start/end zone pair of one ball-progressing action of `all_moves`
(completed passes and carries, concatenated in that order). -/
def allMoves (passes : List XtPass) (carries : List XtCarry) :
    List (Fin nZones × Fin nZones) :=
  (passes.filter fun p => p.is_completed).map
      (fun p => (zoneIdx p.location_x p.location_y,
        zoneIdx p.end_location_x p.end_location_y)) ++
    carries.map fun c => (zoneIdx c.location_x c.location_y,
      zoneIdx c.end_location_x c.end_location_y)

/-- `shot_counts` per zone. -/
def shotCount (shots : List XtShot) (z : Fin nZones) : ℕ :=
  (shots.filter fun s => zoneIdx s.location_x s.location_y == z).length

/-- `goal_counts` per zone (shots with `is_goal == True`). -/
def goalCount (shots : List XtShot) (z : Fin nZones) : ℕ :=
  (shots.filter fun s => s.is_goal && zoneIdx s.location_x s.location_y == z).length

/-- `move_counts` per zone: completed passes plus carries departing the
zone. -/
def moveCount (passes : List XtPass) (carries : List XtCarry) (z : Fin nZones) : ℕ :=
  (allMoves passes carries).countP fun m => m.1 == z

/-- `p_shot = shot_counts / (shot_counts + move_counts + 1e-6)`. -/
def pShot (passes : List XtPass) (carries : List XtCarry) (shots : List XtShot)
    (z : Fin nZones) : ℚ :=
  (shotCount shots z : ℚ) / ((shotCount shots z : ℚ) + (moveCount passes carries z : ℚ) + EPS)

/-- `p_move = move_counts / (shot_counts + move_counts + 1e-6)`. -/
def pMove (passes : List XtPass) (carries : List XtCarry) (shots : List XtShot)
    (z : Fin nZones) : ℚ :=
  (moveCount passes carries z : ℚ) /
    ((shotCount shots z : ℚ) + (moveCount passes carries z : ℚ) + EPS)

/-- `p_goal_given_shot = goal_counts / (shot_counts + 1e-6)`. -/
def pGoalGivenShot (shots : List XtShot) (z : Fin nZones) : ℚ :=
  (goalCount shots z : ℚ) / ((shotCount shots z : ℚ) + EPS)

/-- The raw transition counts `np.add.at(T, (start_idx, end_idx), 1)`. -/
def tCount (passes : List XtPass) (carries : List XtCarry) (z zp : Fin nZones) : ℕ :=
  ((allMoves passes carries).filter fun m => m.1 == z && m.2 == zp).length

/-- `row_sums = T.sum(axis=1)`. -/
def rowSum (passes : List XtPass) (carries : List XtCarry) (z : Fin nZones) : ℕ :=
  ∑ zp : Fin nZones, tCount passes carries z zp

/-- The normalized transition matrix: `row_sums[row_sums == 0] = 1` then
`T = T / row_sums`. -/
def tMat (passes : List XtPass) (carries : List XtCarry) (z zp : Fin nZones) : ℚ :=
  (tCount passes carries z zp : ℚ) /
    (if rowSum passes carries z = 0 then 1 else (rowSum passes carries z : ℚ))

/-- One round of the value-iteration loop body:
`xT_new = (p_shot * p_goal_given_shot) + (p_move * (T @ xT_flat))`. -/
def valueStep (passes : List XtPass) (carries : List XtCarry) (shots : List XtShot)
    (v : Fin nZones → ℚ) (z : Fin nZones) : ℚ :=
  pShot passes carries shots z * pGoalGivenShot shots z +
    pMove passes carries shots z * ∑ zp : Fin nZones, tMat passes carries z zp * v zp

/-- The `for i in range(ITERS)` loop: apply the body a fixed number of
times, never inspecting the printed `delta`. -/
def iterLoop (f : (Fin nZones → ℚ) → Fin nZones → ℚ) :
    ℕ → (Fin nZones → ℚ) → Fin nZones → ℚ
  | 0, v => v
  | n + 1, v => iterLoop f n (f v)

/-- `build_xt_grid` (solver part): value iteration from the all-zero grid
for `ITERS` rounds. -/
def build_xt_grid (passes : List XtPass) (carries : List XtCarry)
    (shots : List XtShot) : Fin nZones → ℚ :=
  iterLoop (valueStep passes carries shots) ITERS fun _ => 0

/-- The number of recorded departures from a zone (what the claim calls an
all-zero row when zero). -/
def departures (passes : List XtPass) (carries : List XtCarry) (z : Fin nZones) : ℕ :=
  ((allMoves passes carries).filter fun m => m.1 == z).length

end Xt

namespace Fixtures

/-- A competitions row held by the store before a Silver run. -/
def compOld : Silver.CompRow :=
  { competition_id := some 1, season_id := some 1,
    competition_name := some "Old", season_name := none, country_name := none }

/-- A different competitions row sitting in the bronze layer. -/
def compNew : Silver.CompRow :=
  { competition_id := some 2, season_id := some 2,
    competition_name := some "New", season_name := none, country_name := none }

/-- A pre-run store holding an earlier `dim_competition`. -/
def stC3 : Silver.Store :=
  { dim_competition := some [compOld], dim_match := none, dim_team := none,
    dim_player := none, fact_events := none, fact_passes := none,
    fact_shots := none, fact_carries := none, fact_lineups := none,
    bridge_shot_freeze_frame := none }

/-- A bronze layer with fresh competitions but no matches Parquet files:
`build_dim_competition` succeeds and commits, then the `_read_bronze` inside
`build_dim_match` raises. -/
def bC3 : Silver.BronzeData :=
  { competitions := [[compNew]], matchesList := [], events := [], lineups := [] }

/-- A minimal bronze matches row. -/
def matchOne : Silver.MatchRow :=
  { match_id := 1, competition_id := some 2, season_id := some 2,
    match_date := some "2022-11-20", kick_off := none,
    home_team := some "H", away_team := some "A", home_score := some 0,
    away_score := some 0, stadium := none, referee := none, stage := none,
    match_week := none }

/-- A minimal bronze lineups row. -/
def lineupOne : Silver.LineupRow :=
  { match_id := 1, team_id := some 1, team_name := some "H",
    player_id := some 10, player_name := some "P", jersey_number := some 7,
    country := none, position := some "Goalkeeper" }

/-- A bronze layer whose competitions, matches and lineups layers are
non-empty but whose events layer is empty: the Silver run commits all four
dimension tables and then aborts inside the events read. -/
def bC3d : Silver.BronzeData :=
  { competitions := [[compNew]], matchesList := [[matchOne]],
    events := [], lineups := [[lineupOne]] }

/-- A Pass event with no recorded `pass.outcome` (a completed pass). -/
def evPass : Silver.EventRow :=
  { id := some "p1", match_id := 1, index := none, period := some 1,
    timestamp := none, minute := some 3, second := some 5,
    type := some "Pass", player_id := some 10, player := some "A",
    team_id := some 7, team := some "T", location := .pynone,
    duration := none, under_pressure := none, out := none,
    play_pattern := none, possession := none, possession_team_id := none,
    position := none, pass_end_location := .pynone, pass_length := none,
    pass_angle := none, pass_height := none, pass_body_part := none,
    pass_outcome := none, pass_type := none, pass_technique := none,
    pass_recipient_id := some 11, pass_cross := none, pass_switch := none,
    pass_through_ball := none, pass_shot_assist := none,
    pass_goal_assist := none, shot_end_location := .pynone,
    shot_statsbomb_xg := none, shot_outcome := none, shot_body_part := none,
    shot_technique := none, shot_type := none, shot_first_time := none,
    shot_key_pass_id := none, shot_freeze_frame := none,
    carry_end_location := .pynone }

/-- The `fact_passes` row `build_fact_passes` produces from `evPass`. -/
def rowPass : Silver.PassRow :=
  { event_id := some "p1", match_id := 1, player_id := some 10,
    team_id := some 7, period := some 1, minute := some 3, second := some 5,
    location_x := none, location_y := none, end_location_x := none,
    end_location_y := none, length := none, angle := none, height := none,
    body_part := none, outcome := none, is_completed := true,
    pass_type := none, technique := none, recipient_id := some 11,
    is_cross := false, is_switch := false, is_through_ball := false,
    is_shot_assist := false, is_goal_assist := false,
    under_pressure := false }

/-- A minimal `fact_shots` row. -/
def shotOne : Silver.ShotRow :=
  { event_id := some "s1", match_id := 1, player_id := some 10,
    team_id := some 7, period := some 1, minute := some 3, second := some 5,
    location_x := none, location_y := none, end_location_x := none,
    end_location_y := none, end_location_z := none, xg := none,
    outcome := none, is_goal := false, body_part := none, technique := none,
    shot_type := none, is_first_time := false, key_pass_id := none,
    under_pressure := false }

/-- The `gold_team_stats` row built from `shotOne` alone. -/
def statsOne : Gold.TeamStatsRow :=
  { match_id := 1, team_id := some 7, team_name := none, total_shots := 1,
    shots_on_target := 0, goals := 0, total_xg := none, total_passes := 0,
    pass_completion_pct := none, total_carries := 0, total_pressures := 0 }

/-- A `fact_events` row: a pass by team 1 inside the pressing zone. -/
def fevPass : Silver.FactEventRow :=
  { event_id := none, match_id := 1, index := none, period := none,
    timestamp := none, minute := none, second := none, type := some "Pass",
    player_id := none, player := none, team_id := some 1, team := some "A",
    location_x := some 60, location_y := some 40, duration := none,
    under_pressure := false, out := false, play_pattern := none,
    possession := none, possession_team_id := none, position := none }

/-- A `fact_events` row: a tackle by team 2 inside the pressing zone. -/
def fevTackle : Silver.FactEventRow :=
  { event_id := none, match_id := 1, index := none, period := none,
    timestamp := none, minute := none, second := none, type := some "Tackle",
    player_id := none, player := none, team_id := some 2, team := some "B",
    location_x := some 55, location_y := some 40, duration := none,
    under_pressure := false, out := false, play_pattern := none,
    possession := none, possession_team_id := none, position := none }

/-- The PPDA row `ppda_match` produces for team 1 from the two events above:
team 2 recorded no passes in the zone (opp fill 0) and team 1 recorded no
defensive actions (denominator floored to 1). -/
def ppdaRowA : Ppda.PpdaRow :=
  { match_id := 1, team_id := some 1, team := some "A",
    opp_passes_in_zone := 0, def_actions := 1, ppda := 0 }

/-- A shot with an xG value of 0.45. -/
def shotXg : Silver.ShotRow :=
  { event_id := some "s2", match_id := 1, player_id := some 10,
    team_id := some 7, period := some 1, minute := some 3, second := some 5,
    location_x := none, location_y := none, end_location_x := none,
    end_location_y := none, end_location_z := none, xg := some (45 / 100),
    outcome := some "Goal", is_goal := true, body_part := none,
    technique := none, shot_type := none, is_first_time := false,
    key_pass_id := none, under_pressure := false }

end Fixtures

end SB

/-! ## Claim theorems -/

open SB

/-- C6: for every input value to location unpacking, a 2-element list
`[x, y]` yields `(x, y)`; `None`, NaN, or the empty list yields
`(None, None)`; a 1-element list `[x]` yields `(x, None)`; a 3-element list
keeps only `(x, y)` in the returned pair; and the z column is retained
exactly when some value in the whole dataset has a non-null third element. -/
theorem C6_unpack_location_cases :
    (∀ x y : ℚ, Utils.extract (.arr [some x, some y]) = (some x, some y, none)) ∧
    Utils.extract .pynone = (none, none, none) ∧
    Utils.extract .nan = (none, none, none) ∧
    Utils.extract (.arr []) = (none, none, none) ∧
    (∀ x : ℚ, Utils.extract (.arr [some x]) = (some x, none, none)) ∧
    (∀ x y z : ℚ,
      ((Utils.extract (.arr [some x, some y, some z])).1,
        (Utils.extract (.arr [some x, some y, some z])).2.1) = (some x, some y)) ∧
    (∀ series : List Utils.LocValue,
      (Utils.unpack_location series).zs = none ↔
        ∀ v ∈ series, (Utils.extract v).2.2 = none) := by
  refine ⟨fun x y => rfl, rfl, rfl, rfl, fun x => rfl, fun x y z => rfl, fun series => ?_⟩
  simp [Utils.unpack_location, List.all_eq_true, Option.isNone_iff_eq_none]

/-- Witness for C6 at a concrete input. -/
theorem C6_witness :
    Utils.extract (.arr [some 3, some 4]) = (some 3, some 4, none) :=
  C6_unpack_location_cases.1 3 4

/-- C1 (claim refuted by the code): a penalty shot WITH a valid location
does not receive 0.76 — the `df.update(df_valid[["xg_model"]])` on line 31
overwrites the 0.76 written on line 30 with the classifier output, because
`DataFrame.update` overwrites non-NA values and `df_valid` does not exclude
penalties.  Here a model answering 1/2 is applied to a penalty at
(108, 40): the written value is the model output 1/2, not 0.76. -/
theorem C1_penalty_with_location_gets_model_output :
    XgApply.xg_model (fun _ => 1 / 2)
        { row := 0, shot_type := some "Penalty",
          location_x := some 108, location_y := some 40 } = 1 / 2 ∧
      ((1 : ℚ) / 2) ≠ 76 / 100 := by
  exact ⟨rfl, by norm_num⟩

/-- C2 counterexample: with the raw events file for match 1 missing (match 2
fully present), `run` over matches `[1, 2]` propagates the
`FileNotFoundError` out of the loop, and match 2 — a sibling unit — is never
ingested, contradicting the claim that every other unit still completes. -/
theorem C2_counterexample :
    (Bronze.runMatches ⟨fun m => m == 2, fun m => m == 2⟩ false [1, 2]
        ⟨[], []⟩).2.isSome = true ∧
      2 ∉ (Bronze.runMatches ⟨fun m => m == 2, fun m => m == 2⟩ false [1, 2]
        ⟨[], []⟩).1.events := by
  decide

/-- C2 amended: a missing raw source file for a match unit — its events file
or its lineups file — is fatal for the WHOLE Bronze run loop, not just for
that unit: the exception propagates and no later match in the list is
ingested, and no failure count exists.  First conjunct: the events file of
the first match is missing (and the unit is not skipped as already
ingested), so the loop aborts with the state exactly as it was when the
unit was reached.  Second conjunct: the events unit succeeds or skips,
leaving some state `st1`, and the lineups file is missing, so the loop
aborts with `st1` — the events write persists, and the rest of the list is
still never processed. -/
theorem C2_missing_unit_aborts_run (raw : Bronze.RawDir) (force : Bool)
    (m : ℕ) (ms : List ℕ) (st : Bronze.BronzeDir) :
    (¬(m ∈ st.events ∧ force = false) → raw.eventsPresent m = false →
      Bronze.runMatches raw force (m :: ms) st =
        (st, some (.fileNotFound "events" m))) ∧
      (∀ st1, Bronze.ingest_events raw m force st = .ok st1 →
        ¬(m ∈ st1.lineups ∧ force = false) → raw.lineupsPresent m = false →
        Bronze.runMatches raw force (m :: ms) st =
          (st1, some (.fileNotFound "lineups" m))) := by
  constructor
  · intro hnoskip hmissing
    simp [Bronze.runMatches, Bronze.ingest_events, hnoskip, hmissing]
  · intro st1 hok hnoskip hmissing
    simp [Bronze.runMatches, hok, Bronze.ingest_lineups, hnoskip, hmissing]

/-- Witness for C2 at concrete inputs: a missing events file aborts with the
untouched state, and a missing lineups file aborts with the events write of
that match persisted — match 2 is never ingested in either case. -/
theorem C2_witness :
    (Bronze.runMatches ⟨fun _ => false, fun _ => false⟩ false [1, 2] ⟨[], []⟩ =
      (⟨[], []⟩, some (.fileNotFound "events" 1))) ∧
      (Bronze.runMatches ⟨fun _ => true, fun _ => false⟩ false [1, 2] ⟨[], []⟩ =
        (⟨[1], []⟩, some (.fileNotFound "lineups" 1))) :=
  ⟨(C2_missing_unit_aborts_run _ false 1 [2] _).1 (by simp) rfl,
    (C2_missing_unit_aborts_run _ false 1 [2] _).2 ⟨[1], []⟩ rfl
      (by simp) rfl⟩

/-- C3 counterexample: `build_dim_competition` reads a non-empty bronze
competitions layer and commits a table that differs from the pre-run one;
`build_dim_match` then raises on the empty matches layer.  The stage throws
mid-build, yet the store differs from its pre-run contents — there is no
stage-level rollback. -/
theorem C3_counterexample :
    ((Silver.run Fixtures.bC3 Fixtures.stC3).2.isSome = true) ∧
      (Silver.run Fixtures.bC3 Fixtures.stC3).1 ≠ Fixtures.stC3 := by
  decide

theorem readCompetitions_ok (b : Silver.BronzeData)
    (h : b.competitions.isEmpty = false) :
    Silver.readCompetitions b = .ok b.competitions.flatten := by
  simp [Silver.readCompetitions, h]

theorem readMatches_ok (b : Silver.BronzeData)
    (h : b.matchesList.isEmpty = false) :
    Silver.readMatches b = .ok b.matchesList.flatten := by
  simp [Silver.readMatches, h]

theorem readLineups_ok (b : Silver.BronzeData) (h : b.lineups.isEmpty = false) :
    Silver.readLineups b = .ok b.lineups.flatten := by
  simp [Silver.readLineups, h]

theorem readEvents_ok (b : Silver.BronzeData) (h : b.events.isEmpty = false) :
    Silver.readEvents b = .ok b.events.flatten := by
  simp [Silver.readEvents, h]

theorem build_dim_competition_ok (b : Silver.BronzeData)
    (h : b.competitions.isEmpty = false) :
    Silver.build_dim_competition b = .ok (SB.dropDup b.competitions.flatten) := by
  simp [Silver.build_dim_competition, readCompetitions_ok b h, Except.map]

theorem build_dim_match_ok (b : Silver.BronzeData)
    (h : b.matchesList.isEmpty = false) :
    Silver.build_dim_match b =
      .ok (Silver.dropDupBy (fun r => r.match_id) b.matchesList.flatten) := by
  simp [Silver.build_dim_match, readMatches_ok b h, Except.map]

theorem build_dim_team_ok (b : Silver.BronzeData)
    (h : b.matchesList.isEmpty = false) :
    Silver.build_dim_team b =
      .ok ((((SB.dropDup (b.matchesList.flatten.map (fun r => r.home_team) ++
          b.matchesList.flatten.map (fun r => r.away_team))).filterMap
            id).insertionSort (· ≤ ·)).enum.map
        fun p => { team_name := p.2, team_id := p.1 + 1 }) := by
  simp [Silver.build_dim_team, readMatches_ok b h, Except.map]

theorem build_dim_player_ok (b : Silver.BronzeData)
    (h : b.lineups.isEmpty = false) :
    Silver.build_dim_player b =
      .ok ((Silver.dropDupBy (fun r => r.player_id) b.lineups.flatten).map
        fun r =>
          { player_id := r.player_id, player_name := r.player_name,
            country := r.country }) := by
  simp [Silver.build_dim_player, readLineups_ok b h, Except.map]

/-- C3 amended: when a table construction raises mid-build the whole Silver
stage aborts — no later table is built, and the failing table and every
later table keep their pre-run contents — but tables committed earlier in
the build order have already been replaced (per-table atomicity, not
stage-level).  The conjuncts cover every construction the run can fail in,
in build order: the competitions read fails with nothing committed; the
matches read (inside `build_dim_match`) fails with `dim_competition`
already replaced; the lineups read (inside `build_dim_player`) fails with
three dimension tables already replaced; the events read fails with all
four dimension tables already replaced; and when every layer is non-empty
no construction raises, so the stage does not abort.  In each failure case
the returned store is exactly the pre-run store with only the
already-committed tables overwritten by their builder outputs. -/
theorem C3_silver_midbuild_failure_aborts_after_commits
    (b : Silver.BronzeData) (st : Silver.Store) :
    (b.competitions.isEmpty = true →
      Silver.run b st = (st, some (.noParquetFiles "competitions"))) ∧
      (b.competitions.isEmpty = false → b.matchesList.isEmpty = true →
        ∃ t1, Silver.build_dim_competition b = .ok t1 ∧
          Silver.run b st =
            ({ st with dim_competition := some t1 },
              some (.noParquetFiles "matches"))) ∧
      (b.competitions.isEmpty = false → b.matchesList.isEmpty = false →
        b.lineups.isEmpty = true →
        ∃ t1 t2 t3, Silver.build_dim_competition b = .ok t1 ∧
          Silver.build_dim_match b = .ok t2 ∧
          Silver.build_dim_team b = .ok t3 ∧
          Silver.run b st =
            ({ st with
                dim_competition := some t1, dim_match := some t2,
                dim_team := some t3 },
              some (.noParquetFiles "lineups"))) ∧
      (b.competitions.isEmpty = false → b.matchesList.isEmpty = false →
        b.lineups.isEmpty = false → b.events.isEmpty = true →
        ∃ t1 t2 t3 t4, Silver.build_dim_competition b = .ok t1 ∧
          Silver.build_dim_match b = .ok t2 ∧
          Silver.build_dim_team b = .ok t3 ∧
          Silver.build_dim_player b = .ok t4 ∧
          Silver.run b st =
            ({ st with
                dim_competition := some t1, dim_match := some t2,
                dim_team := some t3, dim_player := some t4 },
              some (.noParquetFiles "events"))) ∧
      (b.competitions.isEmpty = false → b.matchesList.isEmpty = false →
        b.lineups.isEmpty = false → b.events.isEmpty = false →
        (Silver.run b st).2 = none) := by
  refine ⟨?_, ?_, ?_, ?_, ?_⟩
  · intro h1
    simp [Silver.run, Silver.build_dim_competition, Silver.readCompetitions,
      h1, Except.map]
  · intro h1 h2
    refine ⟨_, build_dim_competition_ok b h1, ?_⟩
    simp [Silver.run, build_dim_competition_ok b h1, Silver.build_dim_match,
      Silver.readMatches, h2, Except.map]
  · intro h1 h2 h3
    refine ⟨_, _, _, build_dim_competition_ok b h1, build_dim_match_ok b h2,
      build_dim_team_ok b h2, ?_⟩
    simp [Silver.run, build_dim_competition_ok b h1, build_dim_match_ok b h2,
      build_dim_team_ok b h2, Silver.build_dim_player, Silver.readLineups,
      h3, Except.map]
  · intro h1 h2 h3 h4
    refine ⟨_, _, _, _, build_dim_competition_ok b h1, build_dim_match_ok b h2,
      build_dim_team_ok b h2, build_dim_player_ok b h3, ?_⟩
    simp [Silver.run, build_dim_competition_ok b h1, build_dim_match_ok b h2,
      build_dim_team_ok b h2, build_dim_player_ok b h3, Silver.readEvents,
      h4, Except.map]
  · intro h1 h2 h3 h4
    simp [Silver.run, build_dim_competition_ok b h1, build_dim_match_ok b h2,
      build_dim_team_ok b h2, build_dim_player_ok b h3, readEvents_ok b h4,
      Silver.build_fact_lineups, readLineups_ok b h3, Except.map]

/-- Witness for C3 at a concrete input exercising the deepest failure
point: all three input layers before events are non-empty, the events
layer is empty, so all four dimension tables are replaced before the stage
aborts. -/
theorem C3_witness :
    ∃ t1 t2 t3 t4,
      Silver.build_dim_competition Fixtures.bC3d = .ok t1 ∧
        Silver.build_dim_match Fixtures.bC3d = .ok t2 ∧
        Silver.build_dim_team Fixtures.bC3d = .ok t3 ∧
        Silver.build_dim_player Fixtures.bC3d = .ok t4 ∧
        Silver.run Fixtures.bC3d Fixtures.stC3 =
          ({ Fixtures.stC3 with
              dim_competition := some t1, dim_match := some t2,
              dim_team := some t3, dim_player := some t4 },
            some (.noParquetFiles "events")) :=
  (C3_silver_midbuild_failure_aborts_after_commits Fixtures.bC3d
    Fixtures.stC3).2.2.2.1 rfl rfl rfl rfl

/-- C4: every `fact_passes` row has `is_completed` true exactly when its
`outcome` is null — completion is the absence-of-outcome check
`_col(passes, "pass_outcome").isna()`, not a separate source boolean. -/
theorem C4_pass_completed_iff_outcome_null (evs : List Silver.EventRow)
    (p : Silver.PassRow) (hp : p ∈ Silver.build_fact_passes evs) :
    p.is_completed = true ↔ p.outcome = none := by
  unfold Silver.build_fact_passes at hp
  rw [List.mem_map] at hp
  obtain ⟨e, _, rfl⟩ := hp
  simp [Option.isNone_iff_eq_none]

/-- Witness for C4 at a concrete input. -/
theorem C4_witness : Fixtures.rowPass.is_completed = true ↔ Fixtures.rowPass.outcome = none :=
  C4_pass_completed_iff_outcome_null [Fixtures.evPass] Fixtures.rowPass (by decide)

theorem mem_of_mem_dropDupAux {α : Type} [DecidableEq α] {l seen : List α} {a : α}
    (h : a ∈ SB.dropDupAux l seen) : a ∈ l := by
  induction l generalizing seen with
  | nil => simp [SB.dropDupAux] at h
  | cons b t ih =>
    rw [SB.dropDupAux] at h
    split at h
    · exact List.mem_cons_of_mem _ (ih h)
    · rcases List.mem_cons.mp h with rfl | h2
      · exact List.mem_cons_self _ _
      · exact List.mem_cons_of_mem _ (ih h2)

theorem mem_of_mem_dropDup {α : Type} [DecidableEq α] {l : List α} {a : α}
    (h : a ∈ SB.dropDup l) : a ∈ l :=
  mem_of_mem_dropDupAux h

/-- C8: every pass-network edge aggregates at least two joined rows (the
`HAVING COUNT(*) >= 2` filter), and the build is unchanged by pre-filtering
the input to completed passes with a non-null recipient — i.e. only such
passes ever contribute to an edge. -/
theorem C8_pass_network_edges (passes : List Silver.PassRow)
    (events : List Silver.FactEventRow) :
    (∀ e ∈ Gold.build_gold_pass_network_edges passes events, 2 ≤ e.pass_count) ∧
      Gold.build_gold_pass_network_edges passes events =
        Gold.build_gold_pass_network_edges (passes.filter Gold.pnEdgeFilter) events := by
  constructor
  · intro e he
    simp only [Gold.build_gold_pass_network_edges, List.mem_filterMap] at he
    obtain ⟨k, hk, he⟩ := he
    split at he
    · rename_i h2
      simp only [Option.some.injEq] at he
      subst he
      exact h2
    · simp at he
  · unfold Gold.build_gold_pass_network_edges Gold.edgeJoinedRows
    rw [List.filter_filter]
    simp

/-- Witness for C8 at a concrete input. -/
theorem C8_witness :
    Gold.build_gold_pass_network_edges [Fixtures.rowPass] [] =
      Gold.build_gold_pass_network_edges
        ([Fixtures.rowPass].filter Gold.pnEdgeFilter) [] :=
  (C8_pass_network_edges [Fixtures.rowPass] []).2

/-- C10: a `(match, team)` pair appears in `gold_team_stats` only if the
team has at least one `fact_shots` row in that match (the query selects
`FROM fact_shots` and groups by its keys); a pair with no shot row is
absent, whatever passes, carries or pressures it has. -/
theorem C10_team_stats_require_a_shot (shots : List Silver.ShotRow)
    (passes : List Silver.PassRow) (carries : List Silver.CarryRow)
    (events : List Silver.FactEventRow) :
    (∀ r ∈ Gold.build_gold_team_stats shots passes carries events,
      ∃ s ∈ shots, s.match_id = r.match_id ∧ s.team_id = r.team_id) ∧
      (∀ m t, (∀ s ∈ shots, ¬(s.match_id = m ∧ s.team_id = t)) →
        ∀ r ∈ Gold.build_gold_team_stats shots passes carries events,
          ¬(r.match_id = m ∧ r.team_id = t)) := by
  have main : ∀ r ∈ Gold.build_gold_team_stats shots passes carries events,
      ∃ s ∈ shots, s.match_id = r.match_id ∧ s.team_id = r.team_id := by
    intro r hr
    simp only [Gold.build_gold_team_stats, List.mem_map] at hr
    obtain ⟨k, hk, hrk⟩ := hr
    have hk2 := mem_of_mem_dropDup hk
    simp only [List.mem_map, List.mem_flatMap] at hk2
    obtain ⟨jr, ⟨s, hs, n, _, hjr⟩, hkey⟩ := hk2
    refine ⟨s, hs, ?_⟩
    subst hjr
    subst hrk
    subst hkey
    exact ⟨rfl, rfl⟩
  exact ⟨main, fun m t hnone r hr hrmt => by
    obtain ⟨s, hs, h1, h2⟩ := main r hr
    exact hnone s hs ⟨h1.trans hrmt.1, h2.trans hrmt.2⟩⟩

/-- Witness for C10 at a concrete input. -/
theorem C10_witness :
    ∃ s ∈ [Fixtures.shotOne],
      s.match_id = Fixtures.statsOne.match_id ∧
        s.team_id = Fixtures.statsOne.team_id :=
  (C10_team_stats_require_a_shot [Fixtures.shotOne] [] [] []).1
    Fixtures.statsOne (by decide)

theorem groupCounts_mem {α β : Type} [DecidableEq β] {key : α → β} {l : List α}
    {kn : β × ℕ} (h : kn ∈ Ppda.groupCounts key l) :
    1 ≤ kn.2 ∧ ∃ a ∈ l, key a = kn.1 := by
  simp only [Ppda.groupCounts, List.mem_map] at h
  obtain ⟨k, hk, rfl⟩ := h
  have hk2 := mem_of_mem_dropDup hk
  rw [List.mem_map] at hk2
  obtain ⟨a, ha, hka⟩ := hk2
  refine ⟨?_, a, ha, hka⟩
  have hmem : a ∈ l.filter (fun x => key x == k) :=
    List.mem_filter.mpr ⟨ha, by simp [hka]⟩
  have hpos := List.length_pos.mpr (List.ne_nil_of_mem hmem)
  simpa using hpos

theorem roundHalfEven_nonneg {x : ℚ} (hx : 0 ≤ x) : 0 ≤ Ppda.roundHalfEven x := by
  unfold Ppda.roundHalfEven
  have h0 : (0 : ℤ) ≤ ⌊x⌋ := Int.floor_nonneg.mpr hx
  split
  · split
    · exact h0
    · omega
  · rw [round_eq]
    have h1 : (0 : ℚ) ≤ x + 1 / 2 := by linarith
    exact Int.floor_nonneg.mpr h1

theorem roundTo2_nonneg {x : ℚ} (hx : 0 ≤ x) : 0 ≤ Ppda.roundTo2 x := by
  unfold Ppda.roundTo2
  have h := roundHalfEven_nonneg (x := x * 100) (by linarith)
  have h2 : (0 : ℚ) ≤ (Ppda.roundHalfEven (x * 100) : ℚ) := by exact_mod_cast h
  exact div_nonneg h2 (by norm_num)

/-- C9: in every computed PPDA row the denominator is at least 1 — when the
team has zero recorded defensive actions in the zone the `fillna(1)` floor
makes it exactly 1 — so every PPDA value is a division by a positive number
and is non-negative (and finite). -/
theorem C9_ppda_denominator_floored (events : List Silver.FactEventRow) :
    ∀ r ∈ Ppda.ppda_match events,
      1 ≤ r.def_actions ∧ 0 ≤ r.opp_passes_in_zone ∧ 0 ≤ r.ppda ∧
        (Ppda.defActionCount events r.match_id r.team_id = 0 →
          r.def_actions = 1) := by
  intro r hr
  simp only [Ppda.ppda_match, List.mem_flatMap, List.mem_map] at hr
  obtain ⟨p, hp, pv, hpv, dv, hdv, rfl⟩ := hr
  have hopp : (0 : ℚ) ≤ (pv.map fun n => (n : ℚ)).getD 0 := by
    cases pv with
    | none => simp
    | some m => simp
  cases dv with
  | none =>
    refine ⟨le_refl 1, hopp, ?_, fun _ => rfl⟩
    exact roundTo2_nonneg (div_nonneg hopp (by norm_num))
  | some n =>
    split at hdv
    · simp at hdv
    · rw [List.mem_map] at hdv
      obtain ⟨hit, hhit, hsome⟩ := hdv
      have hn : n = hit.2 := by
        simpa using hsome.symm
      subst hn
      obtain ⟨hhitda, hcond⟩ := List.mem_filter.mp hhit
      obtain ⟨hge1, a, hafil, hkey⟩ := groupCounts_mem hhitda
      have hm : hit.1.1 = p.1.1 := by
        have := (Bool.and_eq_true _ _).mp hcond
        exact beq_iff_eq.mp this.1
      have ht : hit.1.2.1 = p.1.2.1 := by
        have := (Bool.and_eq_true _ _).mp hcond
        exact beq_iff_eq.mp this.2
      have hcount : 1 ≤ Ppda.defActionCount events p.1.1 p.1.2.1 := by
        have ham : a.match_id = p.1.1 := by
          rw [← hm, ← hkey]; rfl
        have hat : a.team_id = p.1.2.1 := by
          rw [← ht, ← hkey]; rfl
        have hmem2 : a ∈ (events.filter fun e =>
            Ppda.isDefAction e && Ppda.inZone e).filter
              (fun e => e.match_id == p.1.1 && e.team_id == p.1.2.1) :=
          List.mem_filter.mpr ⟨hafil, by simp [ham, hat]⟩
        have hpos := List.length_pos.mpr (List.ne_nil_of_mem hmem2)
        simpa [Ppda.defActionCount] using hpos
      have hge1q : (1 : ℚ) ≤ ((some hit.2).map fun n => (n : ℚ)).getD 1 := by
        simpa using (by exact_mod_cast hge1 : (1 : ℚ) ≤ (hit.2 : ℚ))
      refine ⟨hge1q, hopp, ?_, ?_⟩
      · exact roundTo2_nonneg (div_nonneg hopp (le_trans (by norm_num) hge1q))
      · intro h0
        change Ppda.defActionCount events p.1.1 p.1.2.1 = 0 at h0
        omega

theorem runningSums_ge (l : List (Option ℚ)) (a : ℚ)
    (hl : ∀ x ∈ l, ∀ v, x = some v → 0 ≤ v) :
    ∀ y ∈ Gold.runningSums (some a) l, ∃ b, y = some b ∧ a ≤ b := by
  induction l generalizing a with
  | nil => intro y hy; simp [Gold.runningSums] at hy
  | cons x t ih =>
    have hlt : ∀ x2 ∈ t, ∀ v, x2 = some v → 0 ≤ v :=
      fun x2 hx2 => hl x2 (List.mem_cons_of_mem _ hx2)
    intro y hy
    rw [Gold.runningSums] at hy
    cases x with
    | none =>
      rcases List.mem_cons.mp hy with rfl | hy2
      · exact ⟨a, rfl, le_refl a⟩
      · exact ih a hlt y hy2
    | some v =>
      have hv : 0 ≤ v := hl (some v) (List.mem_cons_self _ _) v rfl
      rcases List.mem_cons.mp hy with rfl | hy2
      · exact ⟨a + v, rfl, by linarith⟩
      · obtain ⟨b, hb, hab⟩ := ih (a + v) hlt y hy2
        exact ⟨b, hb, by linarith⟩

theorem runningSums_mono :
    ∀ (l : List (Option ℚ)) (acc : Option ℚ),
      (∀ x ∈ l, ∀ v, x = some v → 0 ≤ v) →
      ∀ i j : ℕ, i ≤ j → ∀ a b : ℚ,
        (Gold.runningSums acc l).get? i = some (some a) →
        (Gold.runningSums acc l).get? j = some (some b) → a ≤ b := by
  intro l
  induction l with
  | nil => intro acc _ i j _ a b hi _; simp [Gold.runningSums] at hi
  | cons x t ih =>
    intro acc hl i j hij a b hi hj
    have hlt : ∀ x2 ∈ t, ∀ v, x2 = some v → 0 ≤ v :=
      fun x2 hx2 => hl x2 (List.mem_cons_of_mem _ hx2)
    cases i with
    | zero =>
      have ha : Gold.stepAcc acc x = some a := by
        have h2 : some (Gold.stepAcc acc x) = some (some a) := by
          simpa [Gold.runningSums] using hi
        exact Option.some.inj h2
      cases j with
      | zero =>
        have hb : Gold.stepAcc acc x = some b := by
          have h2 : some (Gold.stepAcc acc x) = some (some b) := by
            simpa [Gold.runningSums] using hj
          exact Option.some.inj h2
        rw [ha] at hb
        exact le_of_eq (Option.some.inj hb)
      | succ j2 =>
        have hj2 : (Gold.runningSums (Gold.stepAcc acc x) t).get? j2 = some (some b) := by
          simpa [Gold.runningSums] using hj
        have hmem : (some b) ∈ Gold.runningSums (Gold.stepAcc acc x) t :=
          List.get?_mem hj2
        rw [ha] at hmem
        obtain ⟨c, hc, hac⟩ := runningSums_ge t a hlt (some b) hmem
        rw [Option.some.inj hc]
        exact hac
    | succ i2 =>
      cases j with
      | zero => omega
      | succ j2 =>
        have hi2 : (Gold.runningSums (Gold.stepAcc acc x) t).get? i2 = some (some a) := by
          simpa [Gold.runningSums] using hi
        have hj2 : (Gold.runningSums (Gold.stepAcc acc x) t).get? j2 = some (some b) := by
          simpa [Gold.runningSums] using hj
        exact ih (Gold.stepAcc acc x) hlt i2 j2 (by omega) a b hi2 hj2

theorem runningSums_get?_eq :
    ∀ (l : List (Option ℚ)) (acc : Option ℚ) (j : ℕ) (y : Option ℚ),
      (Gold.runningSums acc l).get? j = some y →
      y = (if (l.take (j + 1)).filterMap id = [] then acc
           else some (acc.getD 0 + ((l.take (j + 1)).filterMap id).sum)) := by
  intro l
  induction l with
  | nil => intro acc j y h; simp [Gold.runningSums] at h
  | cons x t ih =>
    intro acc j y h
    cases j with
    | zero =>
      have hy : y = Gold.stepAcc acc x := by
        have h2 : some (Gold.stepAcc acc x) = some y := by
          simpa [Gold.runningSums] using h
        exact (Option.some.inj h2).symm
      cases x with
      | none => simp [hy, Gold.stepAcc]
      | some v => simp [hy, Gold.stepAcc]
    | succ j2 =>
      have h2 : (Gold.runningSums (Gold.stepAcc acc x) t).get? j2 = some y := by
        simpa [Gold.runningSums] using h
      have h3 := ih (Gold.stepAcc acc x) j2 y h2
      cases x with
      | none => simpa [Gold.stepAcc] using h3
      | some v =>
        by_cases hE : (t.take (j2 + 1)).filterMap id = []
        · rw [if_pos hE] at h3
          simp only [Gold.stepAcc, Option.getD_some] at h3
          simp [List.take_succ_cons, List.filterMap_cons, hE, h3]
        · rw [if_neg hE] at h3
          simp only [Gold.stepAcc, Option.getD_some] at h3
          rw [if_neg (by simp [List.take_succ_cons, List.filterMap_cons, hE])]
          rw [h3]
          simp only [List.take_succ_cons, List.filterMap_cons, id_eq,
            Option.some.injEq, List.sum_cons]
          ring

/-- C7: within every `(match, team)` partition of the xG timeline,
`cumulative_xg` at row j is the running sum of the `xg` column over the
(period, minute, second) order — NULL until the first non-null `xg`, then
the sum of the non-null prefix — and it is monotonically non-decreasing
along that order (every recorded xg value being non-negative, as a
probability is). -/
theorem C7_xg_timeline_cumulative (shots : List Silver.ShotRow)
    (events : List Silver.FactEventRow) (k : ℤ × Option ℤ)
    (hxg : ∀ s ∈ shots, ∀ v, s.xg = some v → 0 ≤ v) :
    (∀ j r, (Gold.partitionTimeline shots events k).get? j = some r →
      r.cumulative_xg =
        (if (((Gold.partitionSorted shots events k).map fun p => p.1.xg).take
              (j + 1)).filterMap id = [] then none
         else some ((((Gold.partitionSorted shots events k).map fun p =>
              p.1.xg).take (j + 1)).filterMap id).sum)) ∧
      (∀ i j a b ri rj, i ≤ j →
        (Gold.partitionTimeline shots events k).get? i = some ri →
        (Gold.partitionTimeline shots events k).get? j = some rj →
        ri.cumulative_xg = some a → rj.cumulative_xg = some b → a ≤ b) := by
  have hcum : ∀ j r, (Gold.partitionTimeline shots events k).get? j = some r →
      (Gold.runningSums none
        ((Gold.partitionSorted shots events k).map fun p => p.1.xg)).get? j =
        some r.cumulative_xg := by
    intro j r hr
    simp only [Gold.partitionTimeline, List.get?_eq_getElem?, List.getElem?_map] at hr
    rw [Option.map_eq_some'] at hr
    obtain ⟨pc, hpc, rfl⟩ := hr
    rw [← List.get?_eq_getElem?, List.get?_zip_eq_some] at hpc
    exact hpc.2
  have hl : ∀ x ∈ (Gold.partitionSorted shots events k).map (fun p => p.1.xg),
      ∀ v, x = some v → 0 ≤ v := by
    intro x hx v hxv
    rw [List.mem_map] at hx
    obtain ⟨p, hp, rfl⟩ := hx
    have hp2 : p ∈ (shots.filter fun s => s.match_id == k.1 && s.team_id == k.2).flatMap
        (fun s => (Gold.joinTeamName events s.match_id s.team_id).map fun n => (s, n)) := by
      have hperm := List.perm_insertionSort (fun a b =>
        Gold.timeKeyLe (a.1.period, a.1.minute, a.1.second)
          (b.1.period, b.1.minute, b.1.second) = true)
        ((shots.filter fun s => s.match_id == k.1 && s.team_id == k.2).flatMap
          (fun s => (Gold.joinTeamName events s.match_id s.team_id).map fun n => (s, n)))
      exact hperm.mem_iff.mp (by simpa [Gold.partitionSorted] using hp)
    rw [List.mem_flatMap] at hp2
    obtain ⟨s, hs, hpmem⟩ := hp2
    rw [List.mem_map] at hpmem
    obtain ⟨n, _, rfl⟩ := hpmem
    exact hxg s (List.mem_filter.mp hs).1 v hxv
  constructor
  · intro j r hr
    have h := runningSums_get?_eq _ none j _ (hcum j r hr)
    simpa using h
  · intro i j a b ri rj hij hi hj hia hjb
    have h1 := hcum i ri hi
    have h2 := hcum j rj hj
    rw [hia] at h1
    rw [hjb] at h2
    exact runningSums_mono _ none hl i j hij a b h1 h2

/-- Witness for C7 at a concrete input. -/
theorem C7_witness :
    (∀ j r,
      (Gold.partitionTimeline [Fixtures.shotXg] [] (1, some 7)).get? j = some r →
      r.cumulative_xg =
        (if (((Gold.partitionSorted [Fixtures.shotXg] [] (1, some 7)).map
              fun p => p.1.xg).take (j + 1)).filterMap id = [] then none
         else some
           ((((Gold.partitionSorted [Fixtures.shotXg] [] (1, some 7)).map
              fun p => p.1.xg).take (j + 1)).filterMap id).sum)) ∧
      (∀ i j a b ri rj, i ≤ j →
        (Gold.partitionTimeline [Fixtures.shotXg] [] (1, some 7)).get? i = some ri →
        (Gold.partitionTimeline [Fixtures.shotXg] [] (1, some 7)).get? j = some rj →
        ri.cumulative_xg = some a → rj.cumulative_xg = some b → a ≤ b) :=
  C7_xg_timeline_cumulative [Fixtures.shotXg] [] (1, some 7) (by
    intro s hs v hv
    rw [List.mem_singleton] at hs
    subst hs
    simp [Fixtures.shotXg] at hv
    subst hv
    norm_num)

theorem sum_filter_count {α : Type} [DecidableEq α] {n : ℕ} (l : List α) (f : α → Fin n) :
    ∑ i : Fin n, (l.filter fun a => f a == i).length = l.length := by
  induction l with
  | nil => simp
  | cons a t ih =>
    have hsplit : ∀ i : Fin n, (List.filter (fun x => f x == i) (a :: t)).length =
        (if f a = i then 1 else 0) + (t.filter fun x => f x == i).length := by
      intro i
      by_cases h : f a = i
      · simp [List.filter_cons, h, Nat.add_comm]
      · simp [List.filter_cons, h]
    simp only [hsplit]
    rw [Finset.sum_add_distrib, ih]
    simp [Finset.sum_ite_eq, add_comm]

theorem rowSum_eq_departures (passes : List Xt.XtPass) (carries : List Xt.XtCarry)
    (z : Fin Xt.nZones) :
    Xt.rowSum passes carries z = Xt.departures passes carries z := by
  unfold Xt.rowSum Xt.tCount Xt.departures
  have h1 : ∀ zp : Fin Xt.nZones,
      List.filter (fun m => m.1 == z && m.2 == zp) (Xt.allMoves passes carries) =
        List.filter (fun m => m.2 == zp)
          (List.filter (fun m => m.1 == z) (Xt.allMoves passes carries)) := by
    intro zp
    rw [List.filter_filter]
    exact List.filter_congr fun a _ => Bool.and_comm _ _
  simp only [h1]
  exact sum_filter_count _ _

theorem tCount_eq_zero_of_no_departures (passes : List Xt.XtPass)
    (carries : List Xt.XtCarry) (z zp : Fin Xt.nZones)
    (h : Xt.departures passes carries z = 0) :
    Xt.tCount passes carries z zp = 0 := by
  unfold Xt.departures at h
  rw [List.length_eq_zero] at h
  unfold Xt.tCount
  have h2 : List.filter (fun m => m.1 == z && m.2 == zp) (Xt.allMoves passes carries) =
      List.filter (fun m => m.2 == zp)
        (List.filter (fun m => m.1 == z) (Xt.allMoves passes carries)) := by
    rw [List.filter_filter]
    exact List.filter_congr fun a _ => Bool.and_comm _ _
  rw [h2, h]
  rfl

theorem iterLoop_eq_iterate (f : (Fin Xt.nZones → ℚ) → Fin Xt.nZones → ℚ) :
    ∀ (n : ℕ) (v : Fin Xt.nZones → ℚ), Xt.iterLoop f n v = f^[n] v := by
  intro n
  induction n with
  | zero => intro v; rfl
  | succ m ih =>
    intro v
    rw [Xt.iterLoop, ih, Function.iterate_succ_apply]

/-- C5: the xT solver iterates
`xT <- p_shot * p_goal_given_shot + p_move * (T @ xT)` exactly `ITERS = 10`
times from the all-zero grid (no convergence test), where every transition
row with at least one recorded departure sums to 1 and every row of a zone
with no recorded departures is identically zero. -/
theorem C5_xt_value_iteration (passes : List Xt.XtPass)
    (carries : List Xt.XtCarry) (shots : List Xt.XtShot) :
    Xt.build_xt_grid passes carries shots =
      (Xt.valueStep passes carries shots)^[Xt.ITERS] (fun _ => 0) ∧
      (∀ v z, Xt.valueStep passes carries shots v z =
        Xt.pShot passes carries shots z * Xt.pGoalGivenShot shots z +
          Xt.pMove passes carries shots z *
            ∑ zp : Fin Xt.nZones, Xt.tMat passes carries z zp * v zp) ∧
      (∀ z, Xt.departures passes carries z ≠ 0 →
        ∑ zp : Fin Xt.nZones, Xt.tMat passes carries z zp = 1) ∧
      (∀ z zp, Xt.departures passes carries z = 0 →
        Xt.tMat passes carries z zp = 0) := by
  refine ⟨iterLoop_eq_iterate _ Xt.ITERS _, fun v z => rfl, ?_, ?_⟩
  · intro z hz
    have hrow := rowSum_eq_departures passes carries z
    have hne : Xt.rowSum passes carries z ≠ 0 := by rw [hrow]; exact hz
    unfold Xt.tMat
    rw [if_neg hne, ← Finset.sum_div]
    have hsum : ∑ zp : Fin Xt.nZones, (Xt.tCount passes carries z zp : ℚ) =
        (Xt.rowSum passes carries z : ℚ) := by
      unfold Xt.rowSum
      push_cast
      rfl
    rw [hsum]
    exact div_self (Nat.cast_ne_zero.mpr hne)
  · intro z zp h0
    have hc := tCount_eq_zero_of_no_departures passes carries z zp h0
    unfold Xt.tMat
    rw [hc]
    simp

/-- Witness for C5 at a concrete input. -/
theorem C5_witness :
    Xt.tMat [] [] (⟨0, by decide⟩ : Fin Xt.nZones) ⟨0, by decide⟩ = 0 :=
  (C5_xt_value_iteration [] [] []).2.2.2 _ _ rfl

/-- Witness for C9 at a concrete input. -/
theorem C9_witness :
    1 ≤ Fixtures.ppdaRowA.def_actions ∧
      0 ≤ Fixtures.ppdaRowA.opp_passes_in_zone ∧ 0 ≤ Fixtures.ppdaRowA.ppda ∧
      (Ppda.defActionCount [Fixtures.fevPass, Fixtures.fevTackle]
          Fixtures.ppdaRowA.match_id Fixtures.ppdaRowA.team_id = 0 →
        Fixtures.ppdaRowA.def_actions = 1) :=
  C9_ppda_denominator_floored [Fixtures.fevPass, Fixtures.fevTackle]
    Fixtures.ppdaRowA (by
      simp only [Ppda.ppda_match]
      refine List.mem_flatMap.mpr
        ⟨((1, some 1, some "A"), 1, some 2, some "B"), by decide, ?_⟩
      refine List.mem_flatMap.mpr ⟨none, by decide, ?_⟩
      refine List.mem_map.mpr ⟨none, by decide, ?_⟩
      norm_num [Fixtures.ppdaRowA, Ppda.roundTo2, Ppda.roundHalfEven])
